import Mathlib

/-!
Shallow embedding of the markdown editor's scroll-synchronization hook
(resources/js/hooks/use-scroll.tsx) and its editor page call site.
Scroll offsets and extents are modelled as rationals; DOM element identity
is modelled by a numeric id carried on each element, so that the handler's
exclusion test `targetElement !== sourceElement` becomes an id comparison.
The reentrancy guard and the deferred `setTimeout(..., 0)` release are
modelled by an explicit task machine: a scroll event runs the handler and,
when a pass is performed, enqueues the timer callback that later clears the
guard.
-/

namespace SyncScroll

/-- The options object accepted by `useSyncScroll`: `vertical`, `horizontal`
and `proportional`, each defaulting to `true`. -/
structure UseSyncScrollOptions where
  vertical : Bool := true
  horizontal : Bool := true
  proportional : Bool := true
deriving DecidableEq

/-- The scroll-relevant state of a DOM element: the two writable offsets
(`scrollTop`, `scrollLeft`) and the four read-only extents, plus an `id`
standing for object identity. -/
structure HTMLElement where
  id : Nat
  scrollTop : ℚ
  scrollLeft : ℚ
  scrollHeight : ℚ
  scrollWidth : ℚ
  clientHeight : ℚ
  clientWidth : ℚ
deriving DecidableEq

/-- The vertical scrollable range `scrollHeight - clientHeight` computed by
both `getScrollPercentage` and `setScrollFromPercentage`. -/
def verticalScrollRange (element : HTMLElement) : ℚ :=
  element.scrollHeight - element.clientHeight

/-- The horizontal scrollable range `scrollWidth - clientWidth` computed by
both `getScrollPercentage` and `setScrollFromPercentage`. -/
def horizontalScrollRange (element : HTMLElement) : ℚ :=
  element.scrollWidth - element.clientWidth

/-- `getScrollPercentage` from use-scroll.tsx: the vertical and horizontal
scroll percentages of an element, `0` when the corresponding scrollable
range is not strictly positive. -/
def getScrollPercentage (element : HTMLElement) : ℚ × ℚ :=
  let verticalPercent :=
    if verticalScrollRange element > 0 then
      element.scrollTop / verticalScrollRange element
    else 0
  let horizontalPercent :=
    if horizontalScrollRange element > 0 then
      element.scrollLeft / horizontalScrollRange element
    else 0
  (verticalPercent, horizontalPercent)

/-- `setScrollFromPercentage` from use-scroll.tsx: writes each offset of
`element` as `percent * range`, but only when the axis is enabled and the
element's own range on that axis is strictly positive. The `vertical` and
`horizontal` flags are the options captured by the closure. -/
def setScrollFromPercentage (vertical horizontal : Bool) (element : HTMLElement)
    (verticalPercent horizontalPercent : ℚ) : HTMLElement :=
  let e1 :=
    if vertical ∧ verticalScrollRange element > 0 then
      { element with scrollTop := verticalPercent * verticalScrollRange element }
    else element
  if horizontal ∧ horizontalScrollRange element > 0 then
    { e1 with scrollLeft := horizontalPercent * horizontalScrollRange element }
  else e1

/-- The direct (non-proportional) branch of `scrollHandler`: mirror the
source element's raw offsets onto the target for each enabled axis. -/
def directSync (vertical horizontal : Bool)
    (sourceElement targetElement : HTMLElement) : HTMLElement :=
  let t1 :=
    if vertical then { targetElement with scrollTop := sourceElement.scrollTop }
    else targetElement
  if horizontal then { t1 with scrollLeft := sourceElement.scrollLeft }
  else t1

/-- The per-target body of the `refs.forEach` loop in `scrollHandler`. -/
def syncTarget (options : UseSyncScrollOptions)
    (sourceElement targetElement : HTMLElement) : HTMLElement :=
  if options.proportional then
    let p := getScrollPercentage sourceElement
    setScrollFromPercentage options.vertical options.horizontal targetElement p.1 p.2
  else
    directSync options.vertical options.horizontal sourceElement targetElement

/-- One synchronization pass over the ref list: every live target that is
not (by identity) the source element is synchronized; the source entry and
dead refs are left untouched. -/
def scrollPass (options : UseSyncScrollOptions) (sourceElement : HTMLElement)
    (refs : List (Option HTMLElement)) : List (Option HTMLElement) :=
  refs.map fun ref =>
    match ref with
    | none => none
    | some targetElement =>
      if targetElement.id ≠ sourceElement.id then
        some (syncTarget options sourceElement targetElement)
      else
        some targetElement

/-- The mutable state a session's handler sees: the ref list and the
`isSyncing` reentrancy flag. -/
structure SyncState where
  refs : List (Option HTMLElement)
  isSyncing : Bool
deriving DecidableEq

/-- Event-loop tasks relevant to one session: a scroll observation on some
source element, or the zero-delay timer callback scheduled by a pass. -/
inductive Task where
  | scrollEvent (sourceElement : HTMLElement)
  | timerCallback
deriving DecidableEq

/-- `scrollHandler` from use-scroll.tsx: discard the event when the guard is
set; otherwise set the guard, run the pass, and schedule (return) the
zero-delay timer callback that will later clear the guard. -/
def scrollHandler (options : UseSyncScrollOptions) (sourceElement : HTMLElement)
    (st : SyncState) : SyncState × List Task :=
  if st.isSyncing then (st, [])
  else
    ({ refs := scrollPass options sourceElement st.refs, isSyncing := true },
      [Task.timerCallback])

/-- Process one event-loop task against the session state, yielding the new
state and the tasks the processing scheduled. -/
def step (options : UseSyncScrollOptions) (t : Task) (st : SyncState) :
    SyncState × List Task :=
  match t with
  | Task.scrollEvent sourceElement => scrollHandler options sourceElement st
  | Task.timerCallback => ({ st with isSyncing := false }, [])

/-- The ids of the refs that currently resolve to a live element. -/
def liveIds (refs : List (Option HTMLElement)) : List Nat :=
  refs.filterMap fun ref => ref.map HTMLElement.id

/-- The attach phase of the `useEffect`: with fewer than two refs nothing is
attached; otherwise one scroll listener is attached per live ref. The result
is the list of element ids holding the session's listener. -/
def attachListeners (refs : List (Option HTMLElement)) : List Nat :=
  if refs.length < 2 then [] else liveIds refs

/-- A scroll event on `sourceElement` reaches the session's handler only if
that element holds one of the session's listeners. -/
def dispatchScroll (options : UseSyncScrollOptions) (listeners : List Nat)
    (sourceElement : HTMLElement) (st : SyncState) : SyncState × List Task :=
  if sourceElement.id ∈ listeners then
    step options (Task.scrollEvent sourceElement) st
  else (st, [])

/-- The cleanup returned by the `useEffect`: for every ref that resolves to
a live element, remove the session's listener from that element
(`removeEventListener` on an element that no longer holds the listener is a
no-op, hence the filter). -/
def release (refs : List (Option HTMLElement)) (listeners : List Nat) : List Nat :=
  refs.foldl
    (fun acc ref =>
      match ref with
      | some e => acc.filter fun l => l ≠ e.id
      | none => acc)
    listeners

/-- The state owned by the editor page (src/unnamed/part_001): the raw text
`value` and the rendered `markedHtml` markup. -/
structure EditorState where
  value : String
  markedHtml : String
deriving DecidableEq

/-- `handleChange` from the editor page: store the new input as the text
state, run the external renderer `marked` on it and store the result as the
markup state. -/
def handleChange (marked : String → String) (input : String)
    (st : EditorState) : EditorState :=
  { st with value := input, markedHtml := marked input }

/-- The options the editor page passes to `useSyncScroll`. -/
def editorOptions : UseSyncScrollOptions :=
  { proportional := true, vertical := true, horizontal := true }

/-- The ref list the editor page passes to `useSyncScroll`: exactly the
text-input surface (`div1Ref`) and the markup-display surface (`div2Ref`). -/
def editorRefs (div1Ref div2Ref : Option HTMLElement) : List (Option HTMLElement) :=
  [div1Ref, div2Ref]

/-! ### Helper lemmas about the embedded operations -/

/-- The `scrollTop` a call to `setScrollFromPercentage` leaves on the element:
written as `percent * range` exactly when the vertical axis is enabled and
the element's own vertical range is strictly positive. -/
theorem setScrollFromPercentage_scrollTop (vertical horizontal : Bool)
    (element : HTMLElement) (verticalPercent horizontalPercent : ℚ) :
    (setScrollFromPercentage vertical horizontal element verticalPercent horizontalPercent).scrollTop =
      if vertical ∧ verticalScrollRange element > 0 then
        verticalPercent * verticalScrollRange element
      else element.scrollTop := by
  simp only [setScrollFromPercentage, apply_ite HTMLElement.scrollTop, ite_self]

/-- The `scrollLeft` a call to `setScrollFromPercentage` leaves on the
element: written as `percent * range` exactly when the horizontal axis is
enabled and the element's own horizontal range is strictly positive. -/
theorem setScrollFromPercentage_scrollLeft (vertical horizontal : Bool)
    (element : HTMLElement) (verticalPercent horizontalPercent : ℚ) :
    (setScrollFromPercentage vertical horizontal element verticalPercent horizontalPercent).scrollLeft =
      if horizontal ∧ horizontalScrollRange element > 0 then
        horizontalPercent * horizontalScrollRange element
      else element.scrollLeft := by
  simp only [setScrollFromPercentage, apply_ite HTMLElement.scrollLeft, ite_self]

/-- The `scrollTop` left by the direct-mode branch. -/
theorem directSync_scrollTop (vertical horizontal : Bool)
    (sourceElement targetElement : HTMLElement) :
    (directSync vertical horizontal sourceElement targetElement).scrollTop =
      if vertical then sourceElement.scrollTop else targetElement.scrollTop := by
  simp only [directSync, apply_ite HTMLElement.scrollTop, ite_self]

/-- The `scrollLeft` left by the direct-mode branch. -/
theorem directSync_scrollLeft (vertical horizontal : Bool)
    (sourceElement targetElement : HTMLElement) :
    (directSync vertical horizontal sourceElement targetElement).scrollLeft =
      if horizontal then sourceElement.scrollLeft else targetElement.scrollLeft := by
  simp only [directSync, apply_ite HTMLElement.scrollLeft, ite_self]

/-- Entry `i` of a synchronization pass, expressed from entry `i` of the
input ref list. -/
theorem scrollPass_getElem (options : UseSyncScrollOptions)
    (sourceElement targetElement : HTMLElement)
    (refs : List (Option HTMLElement)) (i : Nat)
    (href : refs[i]? = some (some targetElement)) :
    (scrollPass options sourceElement refs)[i]? =
      some (if targetElement.id ≠ sourceElement.id then
          some (syncTarget options sourceElement targetElement)
        else some targetElement) := by
  simp [scrollPass, List.getElem?_map, href]

/-- The vertical percentage computed from a source element lies in `[0, 1]`
whenever the source offset lies within its own range. -/
theorem verticalPercent_mem_unit (element : HTMLElement)
    (h0 : 0 ≤ element.scrollTop)
    (h1 : element.scrollTop ≤ verticalScrollRange element) :
    0 ≤ (getScrollPercentage element).1 ∧ (getScrollPercentage element).1 ≤ 1 := by
  simp only [getScrollPercentage]
  rcases lt_or_le 0 (verticalScrollRange element) with hr | hr
  · rw [if_pos hr]
    exact ⟨div_nonneg h0 hr.le, (div_le_one hr).mpr h1⟩
  · rw [if_neg (not_lt.mpr hr)]
    exact ⟨le_refl 0, zero_le_one⟩

/-- The horizontal percentage computed from a source element lies in `[0, 1]`
whenever the source offset lies within its own range. -/
theorem horizontalPercent_mem_unit (element : HTMLElement)
    (h0 : 0 ≤ element.scrollLeft)
    (h1 : element.scrollLeft ≤ horizontalScrollRange element) :
    0 ≤ (getScrollPercentage element).2 ∧ (getScrollPercentage element).2 ≤ 1 := by
  simp only [getScrollPercentage]
  rcases lt_or_le 0 (horizontalScrollRange element) with hr | hr
  · rw [if_pos hr]
    exact ⟨div_nonneg h0 hr.le, (div_le_one hr).mpr h1⟩
  · rw [if_neg (not_lt.mpr hr)]
    exact ⟨le_refl 0, zero_le_one⟩

/-- With both axes disabled the per-target sync body is the identity, in
either mode. -/
theorem syncTarget_disabled_axes (options : UseSyncScrollOptions)
    (sourceElement targetElement : HTMLElement)
    (hv : options.vertical = false) (hh : options.horizontal = false) :
    syncTarget options sourceElement targetElement = targetElement := by
  simp [syncTarget, setScrollFromPercentage, directSync, hv, hh]

/-- `liveIds` on a ref list headed by a live element. -/
theorem liveIds_cons_some (e : HTMLElement) (refs : List (Option HTMLElement)) :
    liveIds (some e :: refs) = e.id :: liveIds refs := rfl

/-- `liveIds` on a ref list headed by a dead ref. -/
theorem liveIds_cons_none (refs : List (Option HTMLElement)) :
    liveIds (none :: refs) = liveIds refs := rfl

/-- The cleanup fold is one filter: a listener survives release exactly when
its element id is not among the ids the cleanup can currently see. -/
theorem release_eq_filter (refs : List (Option HTMLElement)) (listeners : List Nat) :
    release refs listeners =
      listeners.filter fun l => decide (l ∉ liveIds refs) := by
  induction refs generalizing listeners with
  | nil =>
    simp [release, liveIds]
  | cons ref refs ih =>
    cases ref with
    | none =>
      have h1 : release (none :: refs) listeners = release refs listeners := rfl
      rw [h1, ih, liveIds_cons_none]
    | some e =>
      have h1 : release (some e :: refs) listeners =
          release refs (listeners.filter fun l => decide (l ≠ e.id)) := rfl
      rw [h1, ih, List.filter_filter, liveIds_cons_some]
      apply List.filter_congr
      intro l _
      by_cases h1 : l = e.id <;> by_cases h2 : l ∈ liveIds refs <;> simp [h1, h2]

/-! ### Claim theorems -/

/-- C1: in proportional mode, for every scroll event on a source handle and
every other live handle (excluded by identity, not position), each enabled
axis with strictly positive range on the target gets its offset set to
`percent * targetRange`, where `percent = sourceOffset / sourceRange` when
the source range is strictly positive and `0` otherwise. -/
theorem proportional_pass_sets_offset_to_percent_times_range
    (options : UseSyncScrollOptions) (sourceElement targetElement : HTMLElement)
    (refs : List (Option HTMLElement)) (i : Nat)
    (hprop : options.proportional = true)
    (href : refs[i]? = some (some targetElement))
    (hid : targetElement.id ≠ sourceElement.id) :
    ∃ t, (scrollPass options sourceElement refs)[i]? = some (some t) ∧
      (options.vertical = true → 0 < verticalScrollRange targetElement →
        t.scrollTop =
          (if 0 < verticalScrollRange sourceElement then
            sourceElement.scrollTop / verticalScrollRange sourceElement
          else 0) * verticalScrollRange targetElement) ∧
      (options.horizontal = true → 0 < horizontalScrollRange targetElement →
        t.scrollLeft =
          (if 0 < horizontalScrollRange sourceElement then
            sourceElement.scrollLeft / horizontalScrollRange sourceElement
          else 0) * horizontalScrollRange targetElement) := by
  refine ⟨syncTarget options sourceElement targetElement, ?_, ?_, ?_⟩
  · rw [scrollPass_getElem options sourceElement targetElement refs i href, if_pos hid]
  · intro hv hvr
    simp [syncTarget, hprop, setScrollFromPercentage_scrollTop, getScrollPercentage,
      hv, hvr]
  · intro hh hhr
    simp [syncTarget, hprop, setScrollFromPercentage_scrollLeft, getScrollPercentage,
      hh, hhr]

/-- C3: a handle whose range on an axis is not strictly positive never has
its offset on that axis written by a proportional pass, and as a source its
percentage on that axis is `0`, never a division by zero. -/
theorem zero_range_never_written_and_percent_zero
    (options : UseSyncScrollOptions) (sourceElement targetElement : HTMLElement)
    (refs : List (Option HTMLElement)) (i : Nat)
    (hprop : options.proportional = true)
    (href : refs[i]? = some (some targetElement)) :
    (∃ t, (scrollPass options sourceElement refs)[i]? = some (some t) ∧
      (verticalScrollRange targetElement ≤ 0 → t.scrollTop = targetElement.scrollTop) ∧
      (horizontalScrollRange targetElement ≤ 0 → t.scrollLeft = targetElement.scrollLeft)) ∧
    (verticalScrollRange sourceElement ≤ 0 →
      (getScrollPercentage sourceElement).1 = 0) ∧
    (horizontalScrollRange sourceElement ≤ 0 →
      (getScrollPercentage sourceElement).2 = 0) := by
  refine ⟨?_, ?_, ?_⟩
  · by_cases hid : targetElement.id ≠ sourceElement.id
    · refine ⟨syncTarget options sourceElement targetElement, ?_, ?_, ?_⟩
      · rw [scrollPass_getElem options sourceElement targetElement refs i href, if_pos hid]
      · intro hvr
        simp [syncTarget, hprop, setScrollFromPercentage_scrollTop, not_lt.mpr hvr]
      · intro hhr
        simp [syncTarget, hprop, setScrollFromPercentage_scrollLeft, not_lt.mpr hhr]
    · refine ⟨targetElement, ?_, fun _ => rfl, fun _ => rfl⟩
      rw [scrollPass_getElem options sourceElement targetElement refs i href, if_neg hid]
  · intro hvr
    simp [getScrollPercentage, not_lt.mpr hvr]
  · intro hhr
    simp [getScrollPercentage, not_lt.mpr hhr]

/-- C5: in direct (non-proportional) mode, every other live handle's offset
on each enabled axis is set to exactly the source handle's raw offset, with
no rescaling and no dependence on the target's own range. -/
theorem direct_pass_mirrors_raw_offsets
    (options : UseSyncScrollOptions) (sourceElement targetElement : HTMLElement)
    (refs : List (Option HTMLElement)) (i : Nat)
    (hprop : options.proportional = false)
    (href : refs[i]? = some (some targetElement))
    (hid : targetElement.id ≠ sourceElement.id) :
    ∃ t, (scrollPass options sourceElement refs)[i]? = some (some t) ∧
      (options.vertical = true → t.scrollTop = sourceElement.scrollTop) ∧
      (options.horizontal = true → t.scrollLeft = sourceElement.scrollLeft) := by
  refine ⟨syncTarget options sourceElement targetElement, ?_, ?_, ?_⟩
  · rw [scrollPass_getElem options sourceElement targetElement refs i href, if_pos hid]
  · intro hv
    simp [syncTarget, hprop, directSync_scrollTop, hv]
  · intro hh
    simp [syncTarget, hprop, directSync_scrollLeft, hh]

/-- C8: with `vertical: true` and `horizontal: false`, no pass — proportional
or direct — ever writes a target handle's horizontal offset: every entry of
the ref list keeps its `scrollLeft`. -/
theorem disabled_horizontal_axis_never_written
    (options : UseSyncScrollOptions) (sourceElement targetElement : HTMLElement)
    (refs : List (Option HTMLElement)) (i : Nat)
    (_hv : options.vertical = true)
    (hh : options.horizontal = false)
    (href : refs[i]? = some (some targetElement)) :
    ∃ t, (scrollPass options sourceElement refs)[i]? = some (some t) ∧
      t.scrollLeft = targetElement.scrollLeft := by
  by_cases hid : targetElement.id ≠ sourceElement.id
  · refine ⟨syncTarget options sourceElement targetElement, ?_, ?_⟩
    · rw [scrollPass_getElem options sourceElement targetElement refs i href, if_pos hid]
    · by_cases hp : options.proportional = true
      · simp [syncTarget, hp, setScrollFromPercentage_scrollLeft, hh]
      · simp [syncTarget, hp, directSync_scrollLeft, hh]
  · refine ⟨targetElement, ?_, rfl⟩
    rw [scrollPass_getElem options sourceElement targetElement refs i href, if_neg hid]

/-- C9: in proportional mode, when the source offsets lie within the source's
own ranges, every offset a pass writes to a target on an enabled axis lies
within `[0, thatTarget'sRange]`; offsets the pass does not write are left
unchanged. -/
theorem proportional_writes_stay_within_target_bounds
    (options : UseSyncScrollOptions) (sourceElement targetElement : HTMLElement)
    (refs : List (Option HTMLElement)) (i : Nat)
    (hprop : options.proportional = true)
    (href : refs[i]? = some (some targetElement))
    (hv0 : 0 ≤ sourceElement.scrollTop)
    (hv1 : sourceElement.scrollTop ≤ verticalScrollRange sourceElement)
    (hh0 : 0 ≤ sourceElement.scrollLeft)
    (hh1 : sourceElement.scrollLeft ≤ horizontalScrollRange sourceElement) :
    ∃ t, (scrollPass options sourceElement refs)[i]? = some (some t) ∧
      (t.scrollTop = targetElement.scrollTop ∨
        (0 ≤ t.scrollTop ∧ t.scrollTop ≤ verticalScrollRange targetElement)) ∧
      (t.scrollLeft = targetElement.scrollLeft ∨
        (0 ≤ t.scrollLeft ∧ t.scrollLeft ≤ horizontalScrollRange targetElement)) := by
  by_cases hid : targetElement.id ≠ sourceElement.id
  · refine ⟨syncTarget options sourceElement targetElement, ?_, ?_, ?_⟩
    · rw [scrollPass_getElem options sourceElement targetElement refs i href, if_pos hid]
    · obtain ⟨hp0, hp1⟩ := verticalPercent_mem_unit sourceElement hv0 hv1
      rw [syncTarget, hprop]
      simp only [if_true]
      rw [setScrollFromPercentage_scrollTop]
      by_cases hc : options.vertical = true ∧ verticalScrollRange targetElement > 0
      · rw [if_pos hc]
        exact Or.inr ⟨mul_nonneg hp0 hc.2.le, mul_le_of_le_one_left hc.2.le hp1⟩
      · rw [if_neg hc]
        exact Or.inl rfl
    · obtain ⟨hp0, hp1⟩ := horizontalPercent_mem_unit sourceElement hh0 hh1
      rw [syncTarget, hprop]
      simp only [if_true]
      rw [setScrollFromPercentage_scrollLeft]
      by_cases hc : options.horizontal = true ∧ horizontalScrollRange targetElement > 0
      · rw [if_pos hc]
        exact Or.inr ⟨mul_nonneg hp0 hc.2.le, mul_le_of_le_one_left hc.2.le hp1⟩
      · rw [if_neg hc]
        exact Or.inl rfl
  · refine ⟨targetElement, ?_, Or.inl rfl, Or.inl rfl⟩
    rw [scrollPass_getElem options sourceElement targetElement refs i href, if_neg hid]

/-- Auxiliary for C10: with both axes disabled, a pass leaves the whole ref
list unchanged, in either mode. -/
theorem scrollPass_disabled_axes (options : UseSyncScrollOptions)
    (sourceElement : HTMLElement)
    (hv : options.vertical = false) (hh : options.horizontal = false)
    (refs : List (Option HTMLElement)) :
    scrollPass options sourceElement refs = refs := by
  induction refs with
  | nil => rfl
  | cons ref refs ih =>
    have hmap : scrollPass options sourceElement (ref :: refs) =
        (match ref with
          | none => none
          | some targetElement =>
            if targetElement.id ≠ sourceElement.id then
              some (syncTarget options sourceElement targetElement)
            else some targetElement) :: scrollPass options sourceElement refs := rfl
    rw [hmap, ih]
    cases ref with
    | none => rfl
    | some targetElement =>
      by_cases hid : targetElement.id ≠ sourceElement.id
      · simp [hid, syncTarget_disabled_axes options sourceElement targetElement hv hh]
      · simp [hid]

/-- C10: with both axes disabled, a scroll event on any handle writes no
offset to any handle in either mode — the handler only sets the reentrancy
guard (and schedules its deferred release), leaving every ref unchanged. -/
theorem disabled_axes_pass_only_toggles_guard
    (options : UseSyncScrollOptions) (sourceElement : HTMLElement) (st : SyncState)
    (hv : options.vertical = false) (hh : options.horizontal = false)
    (hsync : st.isSyncing = false) :
    scrollPass options sourceElement st.refs = st.refs ∧
    scrollHandler options sourceElement st =
      ({ refs := st.refs, isSyncing := true }, [Task.timerCallback]) := by
  have hpass := scrollPass_disabled_axes options sourceElement hv hh st.refs
  refine ⟨hpass, ?_⟩
  rw [scrollHandler, hsync]
  simp [hpass]

/-- C2: a scroll event observed while the reentrancy guard is set is
discarded entirely — same state back, nothing queued; a pass from an idle
state sets the guard and schedules its release as a separate deferred timer
task rather than clearing it itself, so an offset-change echo processed
before that timer is discarded, and only the timer task clears the guard. -/
theorem reentrancy_guard_discards_and_defers_release
    (options : UseSyncScrollOptions) (sourceElement echoElement : HTMLElement)
    (st busy : SyncState)
    (hsync : st.isSyncing = false) (hbusy : busy.isSyncing = true) :
    step options (Task.scrollEvent echoElement) busy = (busy, []) ∧
    (scrollHandler options sourceElement st).1.isSyncing = true ∧
    (scrollHandler options sourceElement st).2 = [Task.timerCallback] ∧
    step options (Task.scrollEvent echoElement) (scrollHandler options sourceElement st).1 =
      ((scrollHandler options sourceElement st).1, []) ∧
    step options Task.timerCallback (scrollHandler options sourceElement st).1 =
      ({ (scrollHandler options sourceElement st).1 with isSyncing := false }, []) := by
  refine ⟨?_, ?_, ?_, ?_, ?_⟩
  · simp [step, scrollHandler, hbusy]
  · simp [scrollHandler, hsync]
  · simp [scrollHandler, hsync]
  · simp [step, scrollHandler, hsync]
  · simp [step, scrollHandler, hsync]

/-- C4: establishing a session over fewer than two refs attaches zero
listeners, and no scroll event dispatched through this session ever changes
any state. -/
theorem below_threshold_session_is_noop
    (options : UseSyncScrollOptions) (refs : List (Option HTMLElement))
    (sourceElement : HTMLElement) (st : SyncState)
    (hlen : refs.length < 2) :
    attachListeners refs = [] ∧
    dispatchScroll options (attachListeners refs) sourceElement st = (st, []) := by
  have hatt : attachListeners refs = [] := by
    rw [attachListeners, if_pos hlen]
  refine ⟨hatt, ?_⟩
  rw [hatt]
  simp [dispatchScroll]

/-- C6: releasing the session detaches every observer the session attached
(no listener of the session survives the cleanup), and release is
idempotent. -/
theorem release_detaches_all_and_is_idempotent
    (refs : List (Option HTMLElement)) (listeners : List Nat) :
    release refs (attachListeners refs) = [] ∧
    release refs (release refs listeners) = release refs listeners := by
  constructor
  · rw [release_eq_filter, List.filter_eq_nil_iff]
    intro a ha
    rw [attachListeners] at ha
    by_cases hlen : refs.length < 2
    · rw [if_pos hlen] at ha
      cases ha
    · rw [if_neg hlen] at ha
      simp [ha]
  · simp only [release_eq_filter]
    rw [List.filter_filter]
    apply List.filter_congr
    intro a _
    by_cases h : a ∈ liveIds refs <;> simp [h]

/-- C7: the editor page wires exactly two handles — the text-input surface
and the markup-display surface — into `useSyncScroll` with
`proportional: true, vertical: true, horizontal: true`, and every text
change stores the new input as the text state and the external renderer's
output on that input as the markup state. -/
theorem editor_session_shape_and_text_flow
    (marked : String → String) (input : String) (st : EditorState)
    (div1Ref div2Ref : Option HTMLElement) :
    (editorRefs div1Ref div2Ref).length = 2 ∧
    editorOptions.proportional = true ∧
    editorOptions.vertical = true ∧
    editorOptions.horizontal = true ∧
    (handleChange marked input st).value = input ∧
    (handleChange marked input st).markedHtml = marked input :=
  ⟨rfl, rfl, rfl, rfl, rfl, rfl⟩

/-! ### Concrete witnesses -/

/-- Witness for C1 at the spec's own example: source range 50 with offset 50
(percent 1), target range 200. -/
theorem proportional_pass_sets_offset_to_percent_times_range_witness :
    ∃ t, (scrollPass {} ⟨0, 50, 0, 150, 10, 100, 10⟩
        [some ⟨0, 50, 0, 150, 10, 100, 10⟩, some ⟨1, 0, 0, 250, 10, 50, 10⟩])[1]? =
          some (some t) ∧
      (({} : UseSyncScrollOptions).vertical = true →
        0 < verticalScrollRange ⟨1, 0, 0, 250, 10, 50, 10⟩ →
        t.scrollTop =
          (if 0 < verticalScrollRange ⟨0, 50, 0, 150, 10, 100, 10⟩ then
            (⟨0, 50, 0, 150, 10, 100, 10⟩ : HTMLElement).scrollTop /
              verticalScrollRange ⟨0, 50, 0, 150, 10, 100, 10⟩
          else 0) * verticalScrollRange ⟨1, 0, 0, 250, 10, 50, 10⟩) ∧
      (({} : UseSyncScrollOptions).horizontal = true →
        0 < horizontalScrollRange ⟨1, 0, 0, 250, 10, 50, 10⟩ →
        t.scrollLeft =
          (if 0 < horizontalScrollRange ⟨0, 50, 0, 150, 10, 100, 10⟩ then
            (⟨0, 50, 0, 150, 10, 100, 10⟩ : HTMLElement).scrollLeft /
              horizontalScrollRange ⟨0, 50, 0, 150, 10, 100, 10⟩
          else 0) * horizontalScrollRange ⟨1, 0, 0, 250, 10, 50, 10⟩) :=
  proportional_pass_sets_offset_to_percent_times_range {}
    ⟨0, 50, 0, 150, 10, 100, 10⟩ ⟨1, 0, 0, 250, 10, 50, 10⟩
    [some ⟨0, 50, 0, 150, 10, 100, 10⟩, some ⟨1, 0, 0, 250, 10, 50, 10⟩] 1
    rfl rfl (by decide)

/-- Witness for C2: a fresh idle session with an empty ref list, a scroll
event on one element and an echo event on another, plus a busy session
state. -/
theorem reentrancy_guard_discards_and_defers_release_witness :
    step {} (Task.scrollEvent ⟨1, 0, 0, 0, 0, 0, 0⟩) ⟨[], true⟩ = (⟨[], true⟩, []) ∧
    (scrollHandler {} ⟨0, 0, 0, 0, 0, 0, 0⟩ ⟨[], false⟩).1.isSyncing = true ∧
    (scrollHandler {} ⟨0, 0, 0, 0, 0, 0, 0⟩ ⟨[], false⟩).2 = [Task.timerCallback] ∧
    step {} (Task.scrollEvent ⟨1, 0, 0, 0, 0, 0, 0⟩)
        (scrollHandler {} ⟨0, 0, 0, 0, 0, 0, 0⟩ ⟨[], false⟩).1 =
      ((scrollHandler {} ⟨0, 0, 0, 0, 0, 0, 0⟩ ⟨[], false⟩).1, []) ∧
    step {} Task.timerCallback (scrollHandler {} ⟨0, 0, 0, 0, 0, 0, 0⟩ ⟨[], false⟩).1 =
      ({ (scrollHandler {} ⟨0, 0, 0, 0, 0, 0, 0⟩ ⟨[], false⟩).1 with isSyncing := false },
        []) :=
  reentrancy_guard_discards_and_defers_release {}
    ⟨0, 0, 0, 0, 0, 0, 0⟩ ⟨1, 0, 0, 0, 0, 0, 0⟩ ⟨[], false⟩ ⟨[], true⟩ rfl rfl

/-- Witness for C3: a source and a target that both have zero range on both
axes. -/
theorem zero_range_never_written_and_percent_zero_witness :
    (∃ t, (scrollPass {} ⟨0, 0, 0, 100, 10, 100, 10⟩
        [some ⟨0, 0, 0, 100, 10, 100, 10⟩, some ⟨1, 3, 4, 100, 10, 100, 10⟩])[1]? =
          some (some t) ∧
      (verticalScrollRange ⟨1, 3, 4, 100, 10, 100, 10⟩ ≤ 0 →
        t.scrollTop = (⟨1, 3, 4, 100, 10, 100, 10⟩ : HTMLElement).scrollTop) ∧
      (horizontalScrollRange ⟨1, 3, 4, 100, 10, 100, 10⟩ ≤ 0 →
        t.scrollLeft = (⟨1, 3, 4, 100, 10, 100, 10⟩ : HTMLElement).scrollLeft)) ∧
    (verticalScrollRange ⟨0, 0, 0, 100, 10, 100, 10⟩ ≤ 0 →
      (getScrollPercentage ⟨0, 0, 0, 100, 10, 100, 10⟩).1 = 0) ∧
    (horizontalScrollRange ⟨0, 0, 0, 100, 10, 100, 10⟩ ≤ 0 →
      (getScrollPercentage ⟨0, 0, 0, 100, 10, 100, 10⟩).2 = 0) :=
  zero_range_never_written_and_percent_zero {}
    ⟨0, 0, 0, 100, 10, 100, 10⟩ ⟨1, 3, 4, 100, 10, 100, 10⟩
    [some ⟨0, 0, 0, 100, 10, 100, 10⟩, some ⟨1, 3, 4, 100, 10, 100, 10⟩] 1
    rfl rfl

/-- Witness for C4: a session over a single live ref. -/
theorem below_threshold_session_is_noop_witness :
    attachListeners [some ⟨0, 0, 0, 0, 0, 0, 0⟩] = [] ∧
    dispatchScroll {} (attachListeners [some ⟨0, 0, 0, 0, 0, 0, 0⟩])
        ⟨0, 0, 0, 0, 0, 0, 0⟩ ⟨[some ⟨0, 0, 0, 0, 0, 0, 0⟩], false⟩ =
      (⟨[some ⟨0, 0, 0, 0, 0, 0, 0⟩], false⟩, []) :=
  below_threshold_session_is_noop {} [some ⟨0, 0, 0, 0, 0, 0, 0⟩]
    ⟨0, 0, 0, 0, 0, 0, 0⟩ ⟨[some ⟨0, 0, 0, 0, 0, 0, 0⟩], false⟩ (by decide)

/-- Witness for C5 at the spec's own example: source scrolled to 77 in
direct mode, target with a different range. -/
theorem direct_pass_mirrors_raw_offsets_witness :
    ∃ t, (scrollPass { proportional := false } ⟨0, 77, 5, 200, 50, 100, 20⟩
        [some ⟨0, 77, 5, 200, 50, 100, 20⟩, some ⟨1, 0, 0, 300, 60, 100, 20⟩])[1]? =
          some (some t) ∧
      (({ proportional := false } : UseSyncScrollOptions).vertical = true →
        t.scrollTop = (⟨0, 77, 5, 200, 50, 100, 20⟩ : HTMLElement).scrollTop) ∧
      (({ proportional := false } : UseSyncScrollOptions).horizontal = true →
        t.scrollLeft = (⟨0, 77, 5, 200, 50, 100, 20⟩ : HTMLElement).scrollLeft) :=
  direct_pass_mirrors_raw_offsets { proportional := false }
    ⟨0, 77, 5, 200, 50, 100, 20⟩ ⟨1, 0, 0, 300, 60, 100, 20⟩
    [some ⟨0, 77, 5, 200, 50, 100, 20⟩, some ⟨1, 0, 0, 300, 60, 100, 20⟩] 1
    rfl rfl (by decide)

/-- Witness for C8: vertical-only configuration, source with nonzero
horizontal offset, target keeps its own horizontal offset. -/
theorem disabled_horizontal_axis_never_written_witness :
    ∃ t, (scrollPass { horizontal := false } ⟨0, 10, 20, 150, 80, 100, 40⟩
        [some ⟨0, 10, 20, 150, 80, 100, 40⟩, some ⟨1, 2, 3, 160, 90, 100, 40⟩])[1]? =
          some (some t) ∧
      t.scrollLeft = (⟨1, 2, 3, 160, 90, 100, 40⟩ : HTMLElement).scrollLeft :=
  disabled_horizontal_axis_never_written { horizontal := false }
    ⟨0, 10, 20, 150, 80, 100, 40⟩ ⟨1, 2, 3, 160, 90, 100, 40⟩
    [some ⟨0, 10, 20, 150, 80, 100, 40⟩, some ⟨1, 2, 3, 160, 90, 100, 40⟩] 1
    rfl rfl rfl

/-- Witness for C9: source halfway through its vertical range, target with a
larger range. -/
theorem proportional_writes_stay_within_target_bounds_witness :
    ∃ t, (scrollPass {} ⟨0, 25, 0, 150, 10, 100, 10⟩
        [some ⟨0, 25, 0, 150, 10, 100, 10⟩, some ⟨1, 7, 8, 250, 10, 50, 10⟩])[1]? =
          some (some t) ∧
      (t.scrollTop = (⟨1, 7, 8, 250, 10, 50, 10⟩ : HTMLElement).scrollTop ∨
        (0 ≤ t.scrollTop ∧
          t.scrollTop ≤ verticalScrollRange ⟨1, 7, 8, 250, 10, 50, 10⟩)) ∧
      (t.scrollLeft = (⟨1, 7, 8, 250, 10, 50, 10⟩ : HTMLElement).scrollLeft ∨
        (0 ≤ t.scrollLeft ∧
          t.scrollLeft ≤ horizontalScrollRange ⟨1, 7, 8, 250, 10, 50, 10⟩)) :=
  proportional_writes_stay_within_target_bounds {}
    ⟨0, 25, 0, 150, 10, 100, 10⟩ ⟨1, 7, 8, 250, 10, 50, 10⟩
    [some ⟨0, 25, 0, 150, 10, 100, 10⟩, some ⟨1, 7, 8, 250, 10, 50, 10⟩] 1
    rfl rfl (by norm_num [verticalScrollRange]) (by norm_num [verticalScrollRange])
    (by norm_num [horizontalScrollRange]) (by norm_num [horizontalScrollRange])

/-- Witness for C10: both axes disabled, one live target ref, idle guard. -/
theorem disabled_axes_pass_only_toggles_guard_witness :
    scrollPass { vertical := false, horizontal := false } ⟨0, 0, 0, 0, 0, 0, 0⟩
        (SyncState.mk [some ⟨1, 1, 2, 3, 4, 5, 6⟩] false).refs =
      (SyncState.mk [some ⟨1, 1, 2, 3, 4, 5, 6⟩] false).refs ∧
    scrollHandler { vertical := false, horizontal := false } ⟨0, 0, 0, 0, 0, 0, 0⟩
        (SyncState.mk [some ⟨1, 1, 2, 3, 4, 5, 6⟩] false) =
      ({ refs := (SyncState.mk [some ⟨1, 1, 2, 3, 4, 5, 6⟩] false).refs,
          isSyncing := true },
        [Task.timerCallback]) :=
  disabled_axes_pass_only_toggles_guard { vertical := false, horizontal := false }
    ⟨0, 0, 0, 0, 0, 0, 0⟩ (SyncState.mk [some ⟨1, 1, 2, 3, 4, 5, 6⟩] false)
    rfl rfl rfl

end SyncScroll
